import Mathlib

/-!
Verification development for `superset/dashboards/dao.py` (`DashboardDAO`).

The Python module is shallowly embedded below.  JSON documents are modelled
by the inductive type `JVal` (JSON numbers are restricted to integers; every
number appearing in the dashboard payloads handled here is an integer chart
id or a counter).  Python `dict`s holding JSON data are modelled as
association lists `List (String × JVal)` in insertion order, with the
Python dict operations (`d[k] = v`, `d.pop(k, None)`, `d.get(k)`,
`d.setdefault(k, v)`) translated so that updating an existing key keeps its
position and inserting a new key appends, exactly as CPython dicts behave.

The ambient database session is made explicit: operations that query the
chart (`Slice`) table take the table contents as a `List Slice` parameter,
and `bulk_delete` acts on an explicit two-level session state
(`committed`/`pending`) with an explicit fault parameter standing for
"the storage layer raised `SQLAlchemyError` during the bulk delete or its
commit".  Python exceptions raised by `set_dash_metadata` are modelled by
the `Except PyErr` monad.
-/

namespace SupersetDashboards

set_option autoImplicit false

/-- A JSON value.  `num` carries an `Int`: no non-integral number occurs in
the dashboard metadata fields manipulated by `dao.py`. -/
inductive JVal where
  | null : JVal
  | bool (b : Bool) : JVal
  | num (n : Int) : JVal
  | str (s : String) : JVal
  | arr (elems : List JVal) : JVal
  | obj (fields : List (String × JVal)) : JVal
deriving Repr

/-- A JSON object body, i.e. a Python dict holding JSON data, in insertion
order. -/
abbrev JObj := List (String × JVal)

/-- Python `d.get(k)` / `d[k]` lookup: the value at the first matching key. -/
def objGet : JObj → String → Option JVal
  | [], _ => none
  | p :: rest, k => if p.1 == k then some p.2 else objGet rest k

/-- Python `d[k] = v`: replace the value at an existing key in place,
otherwise append the new binding at the end. -/
def objSet : JObj → String → JVal → JObj
  | [], k, v => [(k, v)]
  | p :: rest, k, v => if p.1 == k then (k, v) :: rest else p :: objSet rest k v

/-- Python `d.pop(k, None)` (result discarded): remove the key if present. -/
def objPop : JObj → String → JObj
  | [], _ => []
  | p :: rest, k => if p.1 == k then objPop rest k else p :: objPop rest k

/-- Python `d.setdefault(k, v)` (result discarded): insert `v` at `k` only
if `k` is absent. -/
def objSetdefault (o : JObj) (k : String) (v : JVal) : JObj :=
  match objGet o k with
  | some _ => o
  | none => o ++ [(k, v)]

/-- Python truthiness of a JSON value (`bool(x)`). -/
def jTruthy : JVal → Bool
  | .null => false
  | .bool b => b
  | .num n => n != 0
  | .str s => !(s == "")
  | .arr elems => !elems.isEmpty
  | .obj fields => !fields.isEmpty

/-- Two hex digits (lower case), as produced by `json.dumps` for control
characters. -/
def hexDigit (n : Nat) : Char :=
  if n < 10 then Char.ofNat (48 + n) else Char.ofNat (87 + n)

/-- Escape one character the way `json.dumps` does for the ASCII range
(the inputs handled by the claims are ASCII; `ensure_ascii` escaping of
characters above `0x7e` is not exercised and characters are passed
through there). -/
def jsonEscapeChar (c : Char) : String :=
  if c = '"' then "\\\""
  else if c = '\\' then "\\\\"
  else if c = '\n' then "\\n"
  else if c = '\t' then "\\t"
  else if c = '\r' then "\\r"
  else if c.toNat < 32 then
    String.mk ['\\', 'u', '0', '0', hexDigit (c.toNat / 16), hexDigit (c.toNat % 16)]
  else String.singleton c

/-- `json.dumps` rendering of a string literal. -/
def jsonQuote (s : String) : String :=
  "\"" ++ String.join (s.data.map jsonEscapeChar) ++ "\""

mutual

/-- `json.dumps(v, indent=None, separators=(itemSep, kvSep))`, without key
sorting (see `sortKeysVal` for `sort_keys=True`). -/
def dumpVal (itemSep kvSep : String) : JVal → String
  | .null => "null"
  | .bool b => if b then "true" else "false"
  | .num n => toString n
  | .str s => jsonQuote s
  | .arr elems => "[" ++ dumpArr itemSep kvSep elems ++ "]"
  | .obj fields => "\x7b" ++ dumpObj itemSep kvSep fields ++ "\x7d"

/-- Comma-separated rendering of array elements. -/
def dumpArr (itemSep kvSep : String) : List JVal → String
  | [] => ""
  | [v] => dumpVal itemSep kvSep v
  | v :: rest => dumpVal itemSep kvSep v ++ itemSep ++ dumpArr itemSep kvSep rest

/-- Comma-separated rendering of object entries. -/
def dumpObj (itemSep kvSep : String) : JObj → String
  | [] => ""
  | [(k, v)] => jsonQuote k ++ kvSep ++ dumpVal itemSep kvSep v
  | (k, v) :: rest =>
      jsonQuote k ++ kvSep ++ dumpVal itemSep kvSep v ++ itemSep ++ dumpObj itemSep kvSep rest

end

/-- Code-point lexicographic comparison of character lists: the order
Python uses to compare strings, as required by `sort_keys=True`. -/
def charListLe : List Char → List Char → Bool
  | [], _ => true
  | _ :: _, [] => false
  | a :: as, b :: bs =>
      if a.toNat < b.toNat then true
      else if b.toNat < a.toNat then false
      else charListLe as bs

/-- Python `a <= b` on strings. -/
def strLe (a b : String) : Bool := charListLe a.data b.data

/-- Insert an entry into a key-sorted object body (code-point order on keys,
matching Python string comparison used by `sort_keys=True`). -/
def insertByKey (p : String × JVal) : JObj → JObj
  | [] => [p]
  | q :: rest => if strLe p.1 q.1 then p :: q :: rest else q :: insertByKey p rest

/-- Sort an object body by key. -/
def sortByKey : JObj → JObj
  | [] => []
  | p :: rest => insertByKey p (sortByKey rest)

mutual

/-- Recursively sort all object keys in a JSON value, as `sort_keys=True`
does while serializing. -/
def sortKeysVal : JVal → JVal
  | .arr elems => .arr (sortKeysArr elems)
  | .obj fields => .obj (sortByKey (sortKeysObj fields))
  | v => v

/-- `sortKeysVal` mapped over array elements. -/
def sortKeysArr : List JVal → List JVal
  | [] => []
  | v :: rest => sortKeysVal v :: sortKeysArr rest

/-- `sortKeysVal` mapped over object entry values. -/
def sortKeysObj : JObj → JObj
  | [] => []
  | (k, v) :: rest => (k, sortKeysVal v) :: sortKeysObj rest

end

/-- `json.dumps(v, indent=None, separators=(",", ":"), sort_keys=True)` —
the compact, key-sorted serialization used for `position_json`
(dao.py lines 222-225). -/
def pyJsonDumpsSorted (v : JVal) : String :=
  dumpVal "," ":" (sortKeysVal v)

/-- `json.dumps(v)` with the default separators `", "` and `": "` — used for
`default_filters` and for the final metadata blob (dao.py lines 252, 283). -/
def pyJsonDumpsDefault (v : JVal) : String :=
  dumpVal ", " ": " v

/-- ASCII whitespace stripped by Python `str.strip()` (space, tab, newline,
carriage return, vertical tab, form feed; the unicode space classes CPython
also strips are not exercised by any claim). -/
def isSpaceChar (c : Char) : Bool :=
  c.toNat == 32 || c.toNat == 9 || c.toNat == 10 || c.toNat == 13 ||
    c.toNat == 11 || c.toNat == 12

/-- Strip leading and trailing whitespace from a character list. -/
def trimChars (l : List Char) : List Char :=
  ((l.dropWhile isSpaceChar).reverse.dropWhile isSpaceChar).reverse

/-- An ASCII decimal digit. -/
def isAsciiDigit (c : Char) : Bool :=
  48 ≤ c.toNat && c.toNat ≤ 57

/-- The value of a run of decimal digits. -/
def digitsVal (l : List Char) : Nat :=
  l.foldl (fun acc c => acc * 10 + (c.toNat - 48)) 0

/-- Python `int(s)` on a string: optional surrounding whitespace, optional
sign, then a non-empty run of decimal digits; anything else raises
`ValueError`.  (Underscore digit grouping and non-ASCII digits, which
CPython also accepts, are not exercised by any claim and are rejected
here.) -/
def pyInt (s : String) : Option Int :=
  let t := trimChars s.data
  let core : List Char :=
    match t with
    | '-' :: rest => rest
    | '+' :: rest => rest
    | _ => t
  let neg : Bool :=
    match t with
    | '-' :: _ => true
    | _ => false
  if !core.isEmpty && core.all isAsciiDigit then
    some (if neg then -(digitsVal core : Int) else (digitsVal core : Int))
  else
    none

/-! ## Data model -/

/-- A chart (`Slice` model): numeric id, external UUID (as the string
`str(slice.uuid)` produces), and a change timestamp in microseconds since
the epoch used by `datetime.fromtimestamp(0)`. -/
structure Slice where
  id : Int
  uuid : String
  changed_on : Int
deriving Repr, DecidableEq

/-- A dataset reference (`dashboard.datasources` element); only its change
timestamp is read by `dao.py`. -/
structure Datasource where
  changed_on : Int
deriving Repr, DecidableEq

/-- A dashboard row.  `json_metadata` is the JSON text column represented by
its parsed document (`dashboard.params_dict` in the source parses the
column; writes store `pyJsonDumpsDefault (.obj json_metadata)`).
`position_json` is kept as the literal string the code writes, since the
code never parses it back.  `owners`/`embedded` are kept as opaque ids. -/
structure Dashboard where
  id : Int
  slug : Option String
  changed_on : Int
  slices : List Slice
  datasources : List Datasource
  owners : List Int
  embedded : List Int
  css : String
  dashboard_title : String
  position_json : String
  json_metadata : JObj
deriving Repr

/-- The update payload `data : Dict[Any, Any]` of `set_dash_metadata`,
restricted to the keys the function reads.  For keys the code only reads
through `data.get(key)` and compares with `None` (`positions`, `css`,
`dashboard_title`, `color_namespace`), an absent key and a JSON-null value
behave identically, so both are modelled as `none`.  `filter_scopes` is
tested with `"filter_scopes" in data`, so `some` means the key is present;
its string form (which the code `json.loads`es) is represented by the
parsed document.  `default_filters` is a JSON string in the payload,
represented by its parsed document (`none` means absent, defaulting to
`"\x7b\x7d"`).  The remaining seven keys are read with `data.get(key,
default)`, so `some .null` (key present with a JSON null) is distinct from
`none` (key absent). -/
structure UpdateData where
  positions : Option JObj
  filter_scopes : Option JObj
  default_filters : Option JObj
  css : Option String
  dashboard_title : Option String
  color_namespace : Option JVal
  expanded_slices : Option JVal
  refresh_frequency : Option JVal
  color_scheme : Option JVal
  label_colors : Option JVal
  shared_label_colors : Option JVal
  color_scheme_domain : Option JVal
  cross_filters_enabled : Option JVal
deriving Repr

/-- The payload with every key absent. -/
def emptyUpdate : UpdateData :=
  ⟨none, none, none, none, none, none, none, none, none, none, none, none, none⟩

/-- Python exceptions that `set_dash_metadata` can raise on the inputs
modelled here: `KeyError` from `obj["type"]`, `obj["meta"]` and
`obj["meta"]["chartId"]`; `TypeError` from subscripting a non-dict `meta`;
`AttributeError` from calling `.get` on a non-dict `value.get("meta", ...)`
result; `ValueError` from `int(key)` on a non-numeric key. -/
inductive PyErr where
  | keyError (k : String) : PyErr
  | valueError (s : String) : PyErr
  | typeError (s : String) : PyErr
  | attributeError (s : String) : PyErr
deriving Repr, DecidableEq

/-- The spec calls the `int(key)` failure a parse error (§7: an integer
parse failure raising `ValueError`); key lookup, type and attribute
failures are not parse errors. -/
def isParseError : PyErr → Bool
  | .valueError _ => true
  | _ => false

/-! ## `set_dash_metadata` (dao.py lines 187-287) -/

/-- dao.py lines 200-204: `slice_ids = [value.get("meta", {}).get("chartId")
for value in positions.values() if isinstance(value, dict)]`.  A missing
`meta` key defaults to the empty dict, so a missing `chartId` yields the
Python `None` (here `.null`); a `meta` value that is present but not a dict
has no `.get` attribute and raises `AttributeError`. -/
def scanChartIds : JObj → Except PyErr (List JVal)
  | [] => .ok []
  | (_, v) :: rest =>
    match v with
    | .obj fields =>
        match objGet fields "meta" with
        | none => do
            let r ← scanChartIds rest
            .ok (JVal.null :: r)
        | some (.obj mf) => do
            let r ← scanChartIds rest
            .ok (((objGet mf "chartId").getD .null) :: r)
        | some _ => .error (.attributeError "get")
    | _ => scanChartIds rest

/-- dao.py line 207: `session.query(Slice).filter(Slice.id.in_(slice_ids))`.
The SQL `IN` list compares the integer id column against the collected
chart-id values; a `NULL` element (or a non-numeric JSON value) never
matches an id. -/
def currentSlices (store : List Slice) (slice_ids : List JVal) : List Slice :=
  store.filter fun s =>
    slice_ids.any fun v =>
      match v with
      | .num m => m == s.id
      | _ => false

/-- Python `x in slice_ids` membership for an `int` `x`, used by the
`default_filters` comprehension (line 250) and the `old_to_new_slice_ids`
filter (line 235).  Python `==` identifies `True`/`False` with `1`/`0`. -/
def pyIntMem (slice_ids : List JVal) (n : Int) : Bool :=
  slice_ids.any fun v =>
    match v with
    | .num m => m == n
    | .bool b => (if b then (1 : Int) else 0) == n
    | _ => false

/-- dao.py line 212: `uuid_map = {slice.id: str(slice.uuid) for slice in
current_slices}` together with the line 220 lookup `uuid_map.get(chart_id)`.
Dict lookup uses Python `==`, which identifies `True`/`False` with
`1`/`0`; any other non-integer chart id misses. -/
def uuidMapGet (current_slices : List Slice) : JVal → Option String
  | .num n => (current_slices.find? fun s => s.id == n).map (·.uuid)
  | .bool b => (current_slices.find? fun s => s.id == (if b then (1 : Int) else 0)).map (·.uuid)
  | _ => none

/-- Python `obj["type"] == "CHART"`: a JSON value equals the string
`"CHART"` exactly when it is that string. -/
def typeIsChart : JVal → Bool
  | .str s => s == "CHART"
  | _ => false

/-- dao.py lines 213-220: annotate one positions entry.  Non-dict entries
are skipped by the `isinstance` guard; for dict entries `obj["type"]` is
always evaluated (raising `KeyError` when absent), and for `"CHART"`
entries `obj["meta"]["chartId"]` is evaluated (raising `KeyError` for a
missing key and `TypeError` when `meta` is not a dict).  A truthy chart id
gets `obj["meta"]["uuid"] = uuid_map.get(chart_id)`, which is `None`
(JSON null) when the id resolved to no stored chart. -/
def annotateEntry (current_slices : List Slice) (v : JVal) : Except PyErr JVal :=
  match v with
  | .obj fields =>
    match objGet fields "type" with
    | none => .error (.keyError "type")
    | some t =>
        if typeIsChart t then
          match objGet fields "meta" with
          | none => .error (.keyError "meta")
          | some (.obj mf) =>
              match objGet mf "chartId" with
              | none => .error (.keyError "chartId")
              | some cid =>
                  if jTruthy cid then
                    let u : JVal :=
                      match uuidMapGet current_slices cid with
                      | some s => .str s
                      | none => .null
                    .ok (.obj (objSet fields "meta" (.obj (objSet mf "uuid" u))))
                  else .ok v
          | some _ => .error (.typeError "meta")
        else .ok v
  | _ => .ok v

/-- The annotation loop over `positions.values()` (dao.py lines 213-220),
in iteration order. -/
def annotatePositions (current_slices : List Slice) : JObj → Except PyErr JObj
  | [] => .ok []
  | (k, v) :: rest => do
      let v2 ← annotateEntry current_slices v
      let r ← annotatePositions current_slices rest
      .ok ((k, v2) :: r)

/-- dao.py lines 247-251: `\x7bkey: v for key, v in
default_filters_data.items() if int(key) in slice_ids\x7d`.  The first key
that `int()` cannot parse raises `ValueError`. -/
def applicableFilters (slice_ids : List JVal) : JObj → Except PyErr JObj
  | [] => .ok []
  | (k, v) :: rest =>
    (pyInt k).elim (.error (.valueError k)) fun n => do
      let r ← applicableFilters slice_ids rest
      .ok (if pyIntMem slice_ids n then (k, v) :: r else r)

/-- dao.py lines 227-244: the `filter_scopes` handling inside the positions
branch.  `new_filter_scopes` stays the empty dict unless the key is present
in the payload.  `if old_to_new_slice_ids:` is Python truthiness, so an
absent argument and an empty mapping both fall back to the identity mapping
over the scanned chart-id values. -/
def computeFilterScopes (copyScopes : List (JVal × JVal) → JObj → JObj)
    (data : UpdateData) (old_to_new_slice_ids : Option (List (Int × Int)))
    (slice_ids : List JVal) : JObj :=
  match data.filter_scopes with
  | none => []
  | some old_filter_scopes =>
      let slc_id_dict : List (JVal × JVal) :=
        match old_to_new_slice_ids with
        | some m =>
            if m.isEmpty then slice_ids.map fun v => (v, v)
            else (m.filter fun p => pyIntMem slice_ids p.2).map
              fun p => (JVal.num p.1, JVal.num p.2)
        | none => slice_ids.map fun v => (v, v)
      copyScopes slc_id_dict old_filter_scopes

/-- Modelled from the spec: `copy_filter_scopes` lives in
`superset/utils/dashboard_filter_scopes_converter.py`, which is not under
`src/`.  The spec (§6) describes it as a pure collaborator
`(idTranslationTable, oldFilterScopeDocument) → newFilterScopeDocument`
that, per §4.1 step 1e and the source comment at dao.py lines 228-229,
replaces old chart ids with new ones and drops entries for charts no longer
on the dashboard.  No claim observes its output beyond it being a
deterministic function, so immune-id rewriting inside the values is carried
over unchanged. -/
def copy_filter_scopes (old_to_new_slc_id_dict : List (JVal × JVal))
    (old_filter_scopes : JObj) : JObj :=
  old_filter_scopes.filterMap fun kv =>
    match pyInt kv.1 with
    | none => none
    | some oldId =>
        match old_to_new_slc_id_dict.find? fun p =>
          match p.1 with
          | .num m => m == oldId
          | _ => false with
        | some (_, .num newId) => some (toString newId, kv.2)
        | _ => none

/-- dao.py lines 259-262: the `css` and `dashboard_title` fields are copied
onto the dashboard when present and non-null. -/
def applyCssTitle (dashboard : Dashboard) (data : UpdateData) : Dashboard :=
  let dashboard :=
    match data.css with
    | some c => { dashboard with css := c }
    | none => dashboard
  match data.dashboard_title with
  | some t => { dashboard with dashboard_title := t }
  | none => dashboard

/-- dao.py lines 264-282: the unconditional tail of the metadata merge:
`filter_scopes` is stored when non-empty and removed otherwise;
`timed_refresh_immune_slices` is defaulted; `color_namespace` is removed
when the payload value is null/absent and stored otherwise; then the seven
always-present keys are assigned with their defaults. -/
def applyMetadataCommon (data : UpdateData) (new_filter_scopes : JObj)
    (md : JObj) : JObj :=
  let md :=
    if !new_filter_scopes.isEmpty then objSet md "filter_scopes" (.obj new_filter_scopes)
    else objPop md "filter_scopes"
  let md := objSetdefault md "timed_refresh_immune_slices" (.arr [])
  let md :=
    match data.color_namespace with
    | none => objPop md "color_namespace"
    | some v => objSet md "color_namespace" v
  let md := objSet md "expanded_slices" (data.expanded_slices.getD (.obj []))
  let md := objSet md "refresh_frequency" (data.refresh_frequency.getD (.num 0))
  let md := objSet md "color_scheme" (data.color_scheme.getD (.str ""))
  let md := objSet md "label_colors" (data.label_colors.getD (.obj []))
  let md := objSet md "shared_label_colors" (data.shared_label_colors.getD (.obj []))
  let md := objSet md "color_scheme_domain" (data.color_scheme_domain.getD (.arr []))
  objSet md "cross_filters_enabled" (data.cross_filters_enabled.getD (.bool true))

/-- The result of `set_dash_metadata` when `data["positions"]` is absent or
null: only the css/title fields and the unconditional metadata tail run,
over `md = dashboard.params_dict` and the empty `new_filter_scopes`. -/
def noPosResult (dashboard : Dashboard) (data : UpdateData) : Dashboard :=
  let d1 := applyCssTitle dashboard data
  { d1 with json_metadata := applyMetadataCommon data [] dashboard.json_metadata }

/-- The result of `set_dash_metadata` in the positions branch, given the
already-computed scanned chart ids, annotated positions document and
filtered default filters: `dashboard.slices` is replaced wholesale by the
store query result (line 209), `position_json` gets the compact key-sorted
dump of the annotated positions (lines 223-225), metadata gets
`default_filters` as a JSON string (line 252) and loses `positions`
(line 255), and then css/title and the unconditional tail run. -/
def posResult (store : List Slice) (dashboard : Dashboard) (data : UpdateData)
    (old_to_new_slice_ids : Option (List (Int × Int)))
    (slice_ids : List JVal) (annotated : JObj) (applicable : JObj) : Dashboard :=
  let current_slices := currentSlices store slice_ids
  let new_filter_scopes := computeFilterScopes copy_filter_scopes data old_to_new_slice_ids slice_ids
  let md := objSet dashboard.json_metadata "default_filters"
    (.str (pyJsonDumpsDefault (.obj applicable)))
  let md := objPop md "positions"
  let d1 := applyCssTitle
    { dashboard with
        slices := current_slices
        position_json := pyJsonDumpsSorted (.obj annotated) } data
  { d1 with json_metadata := applyMetadataCommon data new_filter_scopes md }

/-- `DashboardDAO.set_dash_metadata` (dao.py lines 187-287).  The chart
table is the explicit `store`; the `commit` flag only drives
`db.session.commit()` and is omitted.  Failure of any of the three fallible
passes (chart-id scan, UUID annotation, default-filter filtering) raises in
that source order. -/
def set_dash_metadata (store : List Slice) (dashboard : Dashboard)
    (data : UpdateData) (old_to_new_slice_ids : Option (List (Int × Int))) :
    Except PyErr Dashboard :=
  match data.positions with
  | none => .ok (noPosResult dashboard data)
  | some positions => do
      let slice_ids ← scanChartIds positions
      let annotated ← annotatePositions (currentSlices store slice_ids) positions
      let applicable ← applicableFilters slice_ids (data.default_filters.getD [])
      .ok (posResult store dashboard data old_to_new_slice_ids slice_ids annotated applicable)

/-! ## Slug uniqueness (dao.py lines 141-155) -/

/-- `DashboardDAO.validate_slug_uniqueness` (dao.py lines 141-146): a falsy
slug (the empty string) short-circuits to `True`; otherwise the dashboard
table (`store`) is checked for any row whose slug column equals the given
slug (a SQL `NULL` slug never equals a string). -/
def validate_slug_uniqueness (slug : String) (store : List Dashboard) : Bool :=
  if slug == "" then true
  else !(store.any fun d => d.slug == some slug)

/-- `DashboardDAO.validate_update_slug_uniqueness` (dao.py lines 148-155):
only a `None` slug short-circuits to `True`; any string slug — including
the empty string — is checked against rows with a different id. -/
def validate_update_slug_uniqueness (dashboard_id : Int) (slug : Option String)
    (store : List Dashboard) : Bool :=
  match slug with
  | some s => !(store.any fun d => d.slug == some s && d.id != dashboard_id)
  | none => true

/-! ## Bulk delete (dao.py lines 166-185) -/

/-- The storage error type caught and re-raised by `bulk_delete`. -/
structure SQLAlchemyError where
  msg : String
deriving Repr, DecidableEq

/-- The local database session state: `committed` is what the store holds at
the last transaction boundary, `pending` is the in-session view including
uncommitted changes.  `commit` publishes `pending`; `rollback` discards it. -/
structure DBSession where
  committed : List Dashboard
  pending : List Dashboard
deriving Repr

/-- `db.session.merge(model)`: make the in-session view agree with the given
model (replace the row with a matching id, or add it). -/
def mergeModel (pending : List Dashboard) (m : Dashboard) : List Dashboard :=
  if pending.any fun d => d.id == m.id then
    pending.map fun d => if d.id == m.id then m else d
  else pending ++ [m]

/-- dao.py lines 171-175: detaching associations before the bulk delete. -/
def clearAssociations (m : Dashboard) : Dashboard :=
  { m with slices := [], owners := [], embedded := [] }

/-- `DashboardDAO.bulk_delete` (dao.py lines 166-185).  `fault` stands for
"the bulk row deletion or the commit raised this `SQLAlchemyError`"; the
`except` clause then rolls the session back and re-raises the caught
error.  `if models:` is Python truthiness, so `None` and the empty list
both skip the association-detachment loop. -/
def bulk_delete (models : Option (List Dashboard)) (commit : Bool)
    (fault : Option SQLAlchemyError) (s : DBSession) :
    Except SQLAlchemyError Unit × DBSession :=
  let item_ids : List Int :=
    match models with
    | some ms => ms.map (·.id)
    | none => []
  let s1 : DBSession :=
    match models with
    | some ms =>
        if ms.isEmpty then s
        else { s with
          pending := ms.foldl (fun p m => mergeModel p (clearAssociations m)) s.pending }
    | none => s
  match fault with
  | some ex => (.error ex, { committed := s1.committed, pending := s1.committed })
  | none =>
      let s2 := { s1 with pending := s1.pending.filter fun d => !(item_ids.any fun i => i == d.id) }
      let s3 := if commit then { s2 with committed := s2.pending } else s2
      (.ok (), s3)

/-! ## Derived timestamp queries (dao.py lines 70-139) -/

/-- `datetime.replace(microsecond=0)` on a timestamp measured in
microseconds: drop the (always non-negative) microsecond field. -/
def replaceMicrosecondZero (t : Int) : Int :=
  t - t % 1000000

/-- Python `max` over a non-empty list (the code always appends the epoch
sentinel before taking `max` of a possibly-empty collection, so the empty
case below is never reached). -/
def pyMax : List Int → Int
  | [] => 0
  | x :: xs => xs.foldl max x

/-- `DashboardDAO.get_dashboard_changed_on` (dao.py lines 70-87), on a
dashboard argument: the dashboard's own change timestamp with microseconds
dropped. -/
def get_dashboard_changed_on (dashboard : Dashboard) : Int :=
  replaceMicrosecondZero dashboard.changed_on

/-- `DashboardDAO.get_dashboard_and_slices_changed_on` (dao.py lines
89-113): the maximum of the truncated dashboard timestamp and the raw chart
timestamps, with `datetime.fromtimestamp(0)` (the epoch, `0` here) appended
when the chart list is empty, truncated again. -/
def get_dashboard_and_slices_changed_on (dashboard : Dashboard) : Int :=
  let dashboard_changed_on := get_dashboard_changed_on dashboard
  let slices_changed_on :=
    pyMax ((dashboard.slices.map (·.changed_on)) ++
      (if dashboard.slices.length == 0 then [0] else []))
  replaceMicrosecondZero (max dashboard_changed_on slices_changed_on)

/-- `DashboardDAO.get_dashboard_and_datasets_changed_on` (dao.py lines
115-139): the same computation over `dashboard.datasources`. -/
def get_dashboard_and_datasets_changed_on (dashboard : Dashboard) : Int :=
  let dashboard_changed_on := get_dashboard_changed_on dashboard
  let datasources_changed_on :=
    pyMax ((dashboard.datasources.map (·.changed_on)) ++
      (if dashboard.datasources.length == 0 then [0] else []))
  replaceMicrosecondZero (max dashboard_changed_on datasources_changed_on)

/-! ## Dict-operation lemmas -/

theorem objGet_objSet (o : JObj) (k k' : String) (v : JVal) :
    objGet (objSet o k' v) k = if k = k' then some v else objGet o k := by
  induction o with
  | nil =>
      by_cases h : k = k'
      · subst h; simp [objSet, objGet]
      · have h' : ¬(k' = k) := fun hh => h hh.symm
        simp [objSet, objGet, h, h']
  | cons p rest ih =>
      by_cases h1 : p.1 = k'
      · subst h1
        by_cases h2 : k = p.1
        · subst h2; simp [objSet, objGet]
        · have h2' : ¬(p.1 = k) := fun hh => h2 hh.symm
          simp [objSet, objGet, h2, h2']
      · by_cases h2 : k = k'
        · subst h2
          by_cases h3 : p.1 = k
          · exact absurd h3 h1
          · simp [objSet, objGet, h1, h3, ih]
        · by_cases h3 : p.1 = k <;> simp [objSet, objGet, h1, h2, h3, ih]

theorem objGet_objPop (o : JObj) (k k' : String) :
    objGet (objPop o k') k = if k = k' then none else objGet o k := by
  induction o with
  | nil =>
      by_cases h : k = k' <;> simp [objPop, objGet, h]
  | cons p rest ih =>
      by_cases h1 : p.1 = k'
      · subst h1
        by_cases h2 : k = p.1
        · subst h2; simp [objPop, objGet, ih]
        · have h2' : ¬(p.1 = k) := fun hh => h2 hh.symm
          simp [objPop, objGet, h2, h2', ih]
      · by_cases h2 : k = k'
        · subst h2
          by_cases h3 : p.1 = k <;> simp [objPop, objGet, h1, h3, ih]
        · by_cases h3 : p.1 = k <;> simp [objPop, objGet, h1, h2, h3, ih]

theorem objGet_append (o1 o2 : JObj) (k : String) :
    objGet (o1 ++ o2) k =
      match objGet o1 k with
      | some v => some v
      | none => objGet o2 k := by
  induction o1 with
  | nil => simp [objGet]
  | cons p rest ih =>
      by_cases h : p.1 = k <;> simp [objGet, h, ih]

theorem objGet_objSetdefault (o : JObj) (k k' : String) (v : JVal) :
    objGet (objSetdefault o k' v) k =
      if k = k' then some ((objGet o k').getD v) else objGet o k := by
  unfold objSetdefault
  cases hg : objGet o k' with
  | some w =>
      by_cases h : k = k' <;> simp [h, hg]
  | none =>
      rw [objGet_append]
      by_cases h : k = k'
      · subst h; simp [hg, objGet]
      · have h' : ¬(k' = k) := fun hh => h hh.symm
        cases hk : objGet o k <;> simp [h, h', hk, objGet]

theorem objSet_eq_self (o : JObj) (k : String) (v : JVal)
    (h : objGet o k = some v) : objSet o k v = o := by
  induction o with
  | nil => simp [objGet] at h
  | cons p rest ih =>
      obtain ⟨p1, p2⟩ := p
      by_cases h1 : p1 = k
      · subst h1
        have hv : p2 = v := by simpa [objGet] using h
        subst hv
        simp [objSet]
      · have h' : objGet rest k = some v := by simpa [objGet, h1] using h
        simp [objSet, h1, ih h']

theorem objPop_eq_self (o : JObj) (k : String)
    (h : objGet o k = none) : objPop o k = o := by
  induction o with
  | nil => simp [objPop]
  | cons p rest ih =>
      by_cases h1 : p.1 = k
      · simp [objGet, h1] at h
      · have h' : objGet rest k = none := by simpa [objGet, h1] using h
        simp [objPop, h1, ih h']

theorem objSetdefault_eq_self (o : JObj) (k : String) (v : JVal)
    (h : (objGet o k).isSome) : objSetdefault o k v = o := by
  unfold objSetdefault
  cases hg : objGet o k with
  | some w => rfl
  | none => simp [hg] at h

/-! ## Characterizing the unconditional metadata tail -/

theorem applyMC_get_cross_filters (data : UpdateData) (nfs md : JObj) :
    objGet (applyMetadataCommon data nfs md) "cross_filters_enabled" =
      some (data.cross_filters_enabled.getD (.bool true)) := by
  unfold applyMetadataCommon
  simp [objGet_objSet]

theorem applyMC_get_color_scheme_domain (data : UpdateData) (nfs md : JObj) :
    objGet (applyMetadataCommon data nfs md) "color_scheme_domain" =
      some (data.color_scheme_domain.getD (.arr [])) := by
  unfold applyMetadataCommon
  simp [objGet_objSet]

theorem applyMC_get_shared_label_colors (data : UpdateData) (nfs md : JObj) :
    objGet (applyMetadataCommon data nfs md) "shared_label_colors" =
      some (data.shared_label_colors.getD (.obj [])) := by
  unfold applyMetadataCommon
  simp [objGet_objSet]

theorem applyMC_get_label_colors (data : UpdateData) (nfs md : JObj) :
    objGet (applyMetadataCommon data nfs md) "label_colors" =
      some (data.label_colors.getD (.obj [])) := by
  unfold applyMetadataCommon
  simp [objGet_objSet]

theorem applyMC_get_color_scheme (data : UpdateData) (nfs md : JObj) :
    objGet (applyMetadataCommon data nfs md) "color_scheme" =
      some (data.color_scheme.getD (.str "")) := by
  unfold applyMetadataCommon
  simp [objGet_objSet]

theorem applyMC_get_refresh_frequency (data : UpdateData) (nfs md : JObj) :
    objGet (applyMetadataCommon data nfs md) "refresh_frequency" =
      some (data.refresh_frequency.getD (.num 0)) := by
  unfold applyMetadataCommon
  simp [objGet_objSet]

theorem applyMC_get_expanded_slices (data : UpdateData) (nfs md : JObj) :
    objGet (applyMetadataCommon data nfs md) "expanded_slices" =
      some (data.expanded_slices.getD (.obj [])) := by
  unfold applyMetadataCommon
  simp [objGet_objSet]

theorem applyMC_get_color_namespace (data : UpdateData) (nfs md : JObj) :
    objGet (applyMetadataCommon data nfs md) "color_namespace" =
      data.color_namespace := by
  unfold applyMetadataCommon
  cases data.color_namespace <;>
    simp [objGet_objSet, objGet_objPop]

theorem applyMC_get_timed (data : UpdateData) (nfs md : JObj) :
    objGet (applyMetadataCommon data nfs md) "timed_refresh_immune_slices" =
      some ((objGet md "timed_refresh_immune_slices").getD (.arr [])) := by
  unfold applyMetadataCommon
  cases data.color_namespace <;>
    cases hfs : nfs.isEmpty <;>
      simp [hfs, objGet_objSet, objGet_objPop, objGet_objSetdefault]

theorem applyMC_get_filter_scopes (data : UpdateData) (nfs md : JObj) :
    objGet (applyMetadataCommon data nfs md) "filter_scopes" =
      if nfs.isEmpty then none else some (.obj nfs) := by
  unfold applyMetadataCommon
  cases data.color_namespace <;>
    cases hfs : nfs.isEmpty <;>
      simp [hfs, objGet_objSet, objGet_objPop, objGet_objSetdefault]

/-- The metadata keys that the unconditional tail of `set_dash_metadata`
may touch. -/
def commonKeys : List String :=
  ["filter_scopes", "timed_refresh_immune_slices", "color_namespace",
   "expanded_slices", "refresh_frequency", "color_scheme", "label_colors",
   "shared_label_colors", "color_scheme_domain", "cross_filters_enabled"]

theorem applyMC_get_untouched (data : UpdateData) (nfs md : JObj) (k : String)
    (hk : k ∉ commonKeys) :
    objGet (applyMetadataCommon data nfs md) k = objGet md k := by
  simp only [commonKeys, List.mem_cons, List.mem_singleton, not_or] at hk
  obtain ⟨h1, h2, h3, h4, h5, h6, h7, h8, h9, h10⟩ := hk
  unfold applyMetadataCommon
  cases data.color_namespace <;>
    cases hfs : nfs.isEmpty <;>
      simp [hfs, objGet_objSet, objGet_objPop, objGet_objSetdefault,
        h1, h2, h3, h4, h5, h6, h7, h8, h9, h10]

theorem applyMC_fixpoint (data : UpdateData) (nfs M : JObj)
    (hfs : objGet M "filter_scopes" = if nfs.isEmpty then none else some (.obj nfs))
    (htimed : (objGet M "timed_refresh_immune_slices").isSome)
    (hcns : objGet M "color_namespace" = data.color_namespace)
    (hes : objGet M "expanded_slices" = some (data.expanded_slices.getD (.obj [])))
    (hrf : objGet M "refresh_frequency" = some (data.refresh_frequency.getD (.num 0)))
    (hcs : objGet M "color_scheme" = some (data.color_scheme.getD (.str "")))
    (hlc : objGet M "label_colors" = some (data.label_colors.getD (.obj [])))
    (hslc : objGet M "shared_label_colors" = some (data.shared_label_colors.getD (.obj [])))
    (hcsd : objGet M "color_scheme_domain" = some (data.color_scheme_domain.getD (.arr [])))
    (hcfe : objGet M "cross_filters_enabled" = some (data.cross_filters_enabled.getD (.bool true))) :
    applyMetadataCommon data nfs M = M := by
  have e1 : (if (!nfs.isEmpty) = true then objSet M "filter_scopes" (.obj nfs)
      else objPop M "filter_scopes") = M := by
    cases hn : nfs.isEmpty with
    | true =>
        rw [hn, if_pos rfl] at hfs
        simp only [hn, Bool.not_true, Bool.false_eq_true, if_neg]
        exact objPop_eq_self _ _ hfs
    | false =>
        rw [hn] at hfs
        simp only [Bool.false_eq_true, if_neg] at hfs
        simp only [hn, Bool.not_false, if_pos]
        exact objSet_eq_self _ _ _ hfs
  cases hc : data.color_namespace with
  | none =>
      rw [hc] at hcns
      simp only [applyMetadataCommon, hc]
      rw [e1, objSetdefault_eq_self _ _ _ htimed, objPop_eq_self _ _ hcns,
        objSet_eq_self _ _ _ hes, objSet_eq_self _ _ _ hrf,
        objSet_eq_self _ _ _ hcs, objSet_eq_self _ _ _ hlc,
        objSet_eq_self _ _ _ hslc, objSet_eq_self _ _ _ hcsd,
        objSet_eq_self _ _ _ hcfe]
  | some v =>
      rw [hc] at hcns
      simp only [applyMetadataCommon, hc]
      rw [e1, objSetdefault_eq_self _ _ _ htimed, objSet_eq_self _ _ _ hcns,
        objSet_eq_self _ _ _ hes, objSet_eq_self _ _ _ hrf,
        objSet_eq_self _ _ _ hcs, objSet_eq_self _ _ _ hlc,
        objSet_eq_self _ _ _ hslc, objSet_eq_self _ _ _ hcsd,
        objSet_eq_self _ _ _ hcfe]

theorem applyMetadataCommon_idem (data : UpdateData) (nfs md : JObj) :
    applyMetadataCommon data nfs (applyMetadataCommon data nfs md) =
      applyMetadataCommon data nfs md := by
  apply applyMC_fixpoint
  · exact applyMC_get_filter_scopes data nfs md
  · rw [applyMC_get_timed]; rfl
  · exact applyMC_get_color_namespace data nfs md
  · exact applyMC_get_expanded_slices data nfs md
  · exact applyMC_get_refresh_frequency data nfs md
  · exact applyMC_get_color_scheme data nfs md
  · exact applyMC_get_label_colors data nfs md
  · exact applyMC_get_shared_label_colors data nfs md
  · exact applyMC_get_color_scheme_domain data nfs md
  · exact applyMC_get_cross_filters data nfs md

theorem applyCssTitle_slices (dashboard : Dashboard) (data : UpdateData) :
    (applyCssTitle dashboard data).slices = dashboard.slices := by
  unfold applyCssTitle
  cases data.css <;> cases data.dashboard_title <;> rfl

theorem applyCssTitle_position_json (dashboard : Dashboard) (data : UpdateData) :
    (applyCssTitle dashboard data).position_json = dashboard.position_json := by
  unfold applyCssTitle
  cases data.css <;> cases data.dashboard_title <;> rfl

theorem applyCssTitle_json_metadata (dashboard : Dashboard) (data : UpdateData) :
    (applyCssTitle dashboard data).json_metadata = dashboard.json_metadata := by
  unfold applyCssTitle
  cases data.css <;> cases data.dashboard_title <;> rfl

/-! ## Control-flow characterization of `set_dash_metadata` -/

theorem set_dash_metadata_none (store : List Slice) (d : Dashboard)
    (data : UpdateData) (remap : Option (List (Int × Int)))
    (h : data.positions = none) :
    set_dash_metadata store d data remap = .ok (noPosResult d data) := by
  unfold set_dash_metadata
  rw [h]

theorem set_dash_metadata_pos_ok (store : List Slice) (d : Dashboard)
    (data : UpdateData) (remap : Option (List (Int × Int))) (ps : JObj)
    (sids : List JVal) (ann app : JObj)
    (hp : data.positions = some ps)
    (hscan : scanChartIds ps = .ok sids)
    (hann : annotatePositions (currentSlices store sids) ps = .ok ann)
    (happ : applicableFilters sids (data.default_filters.getD []) = .ok app) :
    set_dash_metadata store d data remap =
      .ok (posResult store d data remap sids ann app) := by
  unfold set_dash_metadata
  rw [hp]
  simp only [bind, Except.bind, hscan, hann, happ]

theorem set_dash_metadata_ok_pos (store : List Slice) (d : Dashboard)
    (data : UpdateData) (remap : Option (List (Int × Int))) (ps : JObj)
    (d' : Dashboard)
    (hp : data.positions = some ps)
    (h : set_dash_metadata store d data remap = .ok d') :
    ∃ sids ann app,
      scanChartIds ps = .ok sids ∧
      annotatePositions (currentSlices store sids) ps = .ok ann ∧
      applicableFilters sids (data.default_filters.getD []) = .ok app ∧
      d' = posResult store d data remap sids ann app := by
  simp only [set_dash_metadata, hp] at h
  cases hscan : scanChartIds ps with
  | error e =>
      simp only [hscan, bind, Except.bind] at h
      exact Except.noConfusion h
  | ok sids =>
      simp only [hscan, bind, Except.bind] at h
      cases hann : annotatePositions (currentSlices store sids) ps with
      | error e =>
          simp only [hann] at h
          exact Except.noConfusion h
      | ok ann =>
          simp only [hann] at h
          cases happ : applicableFilters sids (data.default_filters.getD []) with
          | error e =>
              simp only [happ] at h
              exact Except.noConfusion h
          | ok app =>
              simp only [happ, Except.ok.injEq] at h
              exact ⟨sids, ann, app, rfl, hann, happ, h.symm⟩

theorem set_dash_metadata_scan_error (store : List Slice) (d : Dashboard)
    (data : UpdateData) (remap : Option (List (Int × Int))) (ps : JObj)
    (e : PyErr)
    (hp : data.positions = some ps)
    (hscan : scanChartIds ps = .error e) :
    set_dash_metadata store d data remap = .error e := by
  unfold set_dash_metadata
  rw [hp]
  simp only [bind, Except.bind, hscan]

theorem set_dash_metadata_annotate_error (store : List Slice) (d : Dashboard)
    (data : UpdateData) (remap : Option (List (Int × Int))) (ps : JObj)
    (sids : List JVal) (e : PyErr)
    (hp : data.positions = some ps)
    (hscan : scanChartIds ps = .ok sids)
    (hann : annotatePositions (currentSlices store sids) ps = .error e) :
    set_dash_metadata store d data remap = .error e := by
  unfold set_dash_metadata
  rw [hp]
  simp only [bind, Except.bind, hscan, hann]

theorem set_dash_metadata_filters_error (store : List Slice) (d : Dashboard)
    (data : UpdateData) (remap : Option (List (Int × Int))) (ps : JObj)
    (sids : List JVal) (ann : JObj) (e : PyErr)
    (hp : data.positions = some ps)
    (hscan : scanChartIds ps = .ok sids)
    (hann : annotatePositions (currentSlices store sids) ps = .ok ann)
    (happ : applicableFilters sids (data.default_filters.getD []) = .error e) :
    set_dash_metadata store d data remap = .error e := by
  unfold set_dash_metadata
  rw [hp]
  simp only [bind, Except.bind, hscan, hann, happ]

/-! ## Behavior of the fallible passes -/

theorem applicableFilters_ok_eq (sids : List JVal) : ∀ (dfs app : JObj),
    applicableFilters sids dfs = .ok app →
    app = dfs.filter fun kv =>
      match pyInt kv.1 with
      | some n => pyIntMem sids n
      | none => false
  | [], app, h => by
      simp only [applicableFilters, Except.ok.injEq] at h
      simp [← h]
  | (k, v) :: rest, app, h => by
      rw [applicableFilters] at h
      cases hk : pyInt k with
      | none =>
          rw [hk] at h
          simp only [Option.elim] at h
          exact Except.noConfusion h
      | some n =>
          rw [hk] at h
          simp only [Option.elim] at h
          cases hr : applicableFilters sids rest with
          | error e =>
              simp only [hr, bind, Except.bind] at h
              exact Except.noConfusion h
          | ok r =>
              simp only [hr, bind, Except.bind, Except.ok.injEq] at h
              rw [← h, List.filter_cons, applicableFilters_ok_eq sids rest r hr]
              cases hm : pyIntMem sids n <;> simp [hk, hm]

theorem applicableFilters_error_of_bad_key (sids : List JVal) : ∀ (dfs : JObj),
    (∃ kv ∈ dfs, pyInt kv.1 = none) →
    ∃ k, applicableFilters sids dfs = .error (.valueError k) ∧ pyInt k = none
  | [], h => by simp at h
  | (k0, v0) :: rest, h => by
      cases hk : pyInt k0 with
      | none =>
          exact ⟨k0, by rw [applicableFilters, hk]; simp only [Option.elim], hk⟩
      | some n =>
          obtain ⟨kv', hmem, hbad⟩ := h
          rcases List.mem_cons.mp hmem with heq | hmem'
          · rw [heq] at hbad
            simp only at hbad
            rw [hbad] at hk
            exact Option.noConfusion hk
          · obtain ⟨k, hrec, hkbad⟩ :=
              applicableFilters_error_of_bad_key sids rest ⟨kv', hmem', hbad⟩
            refine ⟨k, ?_, hkbad⟩
            rw [applicableFilters, hk, hrec]
            simp only [Option.elim, bind, Except.bind]

theorem applicableFilters_ok_of_good_keys (sids : List JVal) : ∀ (dfs : JObj),
    (∀ kv ∈ dfs, (pyInt kv.1).isSome) →
    ∃ app, applicableFilters sids dfs = .ok app
  | [], _ => ⟨[], rfl⟩
  | (k0, v0) :: rest, h => by
      have hk := h (k0, v0) (List.mem_cons_self (k0, v0) rest)
      cases hkv : pyInt k0 with
      | none => rw [hkv] at hk; exact absurd hk (by simp)
      | some n =>
          obtain ⟨r, hr⟩ := applicableFilters_ok_of_good_keys sids rest
            fun kv' hm => h kv' (List.mem_cons_of_mem (k0, v0) hm)
          refine ⟨if pyIntMem sids n then (k0, v0) :: r else r, ?_⟩
          rw [applicableFilters, hkv, hr]
          simp only [Option.elim, bind, Except.bind]

theorem scanChartIds_error_shape : ∀ (ps : JObj) (e : PyErr),
    scanChartIds ps = .error e → e = .attributeError "get"
  | [], e, h => by simp [scanChartIds] at h
  | (k, .obj fields) :: rest, e, h => by
      rw [scanChartIds] at h
      cases hm : objGet fields "meta" with
      | none =>
          rw [hm] at h
          cases hr : scanChartIds rest with
          | error e2 =>
              rw [hr] at h
              simp only [bind, Except.bind, Except.error.injEq] at h
              exact h ▸ scanChartIds_error_shape rest e2 hr
          | ok r =>
              rw [hr] at h
              simp only [bind, Except.bind] at h
              exact Except.noConfusion h
      | some mv =>
          rw [hm] at h
          cases mv with
          | obj mf =>
              cases hr : scanChartIds rest with
              | error e2 =>
                  rw [hr] at h
                  simp only [bind, Except.bind, Except.error.injEq] at h
                  exact h ▸ scanChartIds_error_shape rest e2 hr
              | ok r =>
                  rw [hr] at h
                  simp only [bind, Except.bind] at h
                  exact Except.noConfusion h
          | null => simp only [Except.error.injEq] at h; exact h.symm
          | bool b => simp only [Except.error.injEq] at h; exact h.symm
          | num n => simp only [Except.error.injEq] at h; exact h.symm
          | str s => simp only [Except.error.injEq] at h; exact h.symm
          | arr elems => simp only [Except.error.injEq] at h; exact h.symm
  | (k, .null) :: rest, e, h => by
      rw [scanChartIds] at h
      · exact scanChartIds_error_shape rest e h
      · intro fields hh; exact JVal.noConfusion hh
  | (k, .bool b) :: rest, e, h => by
      rw [scanChartIds] at h
      · exact scanChartIds_error_shape rest e h
      · intro fields hh; exact JVal.noConfusion hh
  | (k, .num n) :: rest, e, h => by
      rw [scanChartIds] at h
      · exact scanChartIds_error_shape rest e h
      · intro fields hh; exact JVal.noConfusion hh
  | (k, .str s) :: rest, e, h => by
      rw [scanChartIds] at h
      · exact scanChartIds_error_shape rest e h
      · intro fields hh; exact JVal.noConfusion hh
  | (k, .arr elems) :: rest, e, h => by
      rw [scanChartIds] at h
      · exact scanChartIds_error_shape rest e h
      · intro fields hh; exact JVal.noConfusion hh

theorem annotateEntry_error_shape (cs : List Slice) : ∀ (v : JVal) (e : PyErr),
    annotateEntry cs v = .error e → isParseError e = false
  | .obj fields, e, h => by
      rw [annotateEntry] at h
      cases ht : objGet fields "type" with
      | none =>
          simp only [ht, Except.error.injEq] at h
          rw [← h]; rfl
      | some t =>
          simp only [ht] at h
          by_cases hc : typeIsChart t = true
          · rw [if_pos hc] at h
            cases hm : objGet fields "meta" with
            | none =>
                simp only [hm, Except.error.injEq] at h
                rw [← h]; rfl
            | some mv =>
                simp only [hm] at h
                cases mv with
                | obj mf =>
                    cases hcid : objGet mf "chartId" with
                    | none =>
                        simp only [hcid, Except.error.injEq] at h
                        rw [← h]; rfl
                    | some cid =>
                        simp only [hcid] at h
                        cases htr : jTruthy cid <;> simp [htr] at h
                | null => simp only [Except.error.injEq] at h; rw [← h]; rfl
                | bool b => simp only [Except.error.injEq] at h; rw [← h]; rfl
                | num n => simp only [Except.error.injEq] at h; rw [← h]; rfl
                | str s => simp only [Except.error.injEq] at h; rw [← h]; rfl
                | arr elems => simp only [Except.error.injEq] at h; rw [← h]; rfl
          · rw [if_neg hc] at h
            exact absurd h (by simp)
  | .null, e, h => by
      rw [annotateEntry] at h
      · exact absurd h (by simp)
      · intro fields hh; exact JVal.noConfusion hh
  | .bool b, e, h => by
      rw [annotateEntry] at h
      · exact absurd h (by simp)
      · intro fields hh; exact JVal.noConfusion hh
  | .num n, e, h => by
      rw [annotateEntry] at h
      · exact absurd h (by simp)
      · intro fields hh; exact JVal.noConfusion hh
  | .str s, e, h => by
      rw [annotateEntry] at h
      · exact absurd h (by simp)
      · intro fields hh; exact JVal.noConfusion hh
  | .arr elems, e, h => by
      rw [annotateEntry] at h
      · exact absurd h (by simp)
      · intro fields hh; exact JVal.noConfusion hh

theorem annotatePositions_error_shape (cs : List Slice) : ∀ (ps : JObj) (e : PyErr),
    annotatePositions cs ps = .error e → isParseError e = false
  | [], e, h => by simp [annotatePositions] at h
  | (k, v) :: rest, e, h => by
      rw [annotatePositions] at h
      cases hv : annotateEntry cs v with
      | error e2 =>
          rw [hv] at h
          simp only [bind, Except.bind, Except.error.injEq] at h
          exact h ▸ annotateEntry_error_shape cs v e2 hv
      | ok v2 =>
          rw [hv] at h
          cases hr : annotatePositions cs rest with
          | error e2 =>
              rw [hr] at h
              simp only [bind, Except.bind, Except.error.injEq] at h
              exact h ▸ annotatePositions_error_shape cs rest e2 hr
          | ok r =>
              rw [hr] at h
              simp only [bind, Except.bind] at h
              exact Except.noConfusion h

/-! ## Field characterization of the two result shapes -/

theorem noPosResult_json_metadata (d : Dashboard) (data : UpdateData) :
    (noPosResult d data).json_metadata =
      applyMetadataCommon data [] d.json_metadata := rfl

theorem noPosResult_slices (d : Dashboard) (data : UpdateData) :
    (noPosResult d data).slices = d.slices := by
  simp only [noPosResult]
  rw [applyCssTitle_slices]

theorem noPosResult_position_json (d : Dashboard) (data : UpdateData) :
    (noPosResult d data).position_json = d.position_json := by
  simp only [noPosResult]
  rw [applyCssTitle_position_json]

theorem posResult_json_metadata (store : List Slice) (d : Dashboard)
    (data : UpdateData) (remap : Option (List (Int × Int)))
    (sids : List JVal) (ann app : JObj) :
    (posResult store d data remap sids ann app).json_metadata =
      applyMetadataCommon data
        (computeFilterScopes copy_filter_scopes data remap sids)
        (objPop (objSet d.json_metadata "default_filters"
          (.str (pyJsonDumpsDefault (.obj app)))) "positions") := rfl

theorem posResult_slices (store : List Slice) (d : Dashboard)
    (data : UpdateData) (remap : Option (List (Int × Int)))
    (sids : List JVal) (ann app : JObj) :
    (posResult store d data remap sids ann app).slices =
      currentSlices store sids := by
  simp only [posResult]
  rw [applyCssTitle_slices]

theorem posResult_position_json (store : List Slice) (d : Dashboard)
    (data : UpdateData) (remap : Option (List (Int × Int)))
    (sids : List JVal) (ann app : JObj) :
    (posResult store d data remap sids ann app).position_json =
      pyJsonDumpsSorted (.obj ann) := by
  simp only [posResult]
  rw [applyCssTitle_position_json]

/-! ## Shared concrete fixtures -/

/-- A dashboard row with empty documents, used as the base of the concrete
test fixtures below. -/
def baseDashboard : Dashboard :=
  ⟨1, none, 0, [], [], [], [], "", "", "", []⟩

/-- A well-formed chart-reference node of the positions document. -/
def posCHART (n : Int) : JVal :=
  .obj [("type", .str "CHART"), ("meta", .obj [("chartId", .num n)])]

/-- A stored chart with id 1. -/
def sliceOne : Slice := ⟨1, "uuid-1", 0⟩

/-! ## Claim C3: empty/absent slugs and the uniqueness checks -/

/-- C3 (counterexample): with a store holding a second dashboard whose slug
column is the empty string, `validate_update_slug_uniqueness(1, "")`
reports a conflict (`false`), contradicting the claim that an empty-string
slug is always reported unique on the update path. -/
theorem c3_counterexample :
    validate_update_slug_uniqueness 1 (some "")
      [{ baseDashboard with id := 2, slug := some "" }] = false := rfl

/-- C3 (amended): `validate_slug_uniqueness ""` is `true` for every store,
and `validate_update_slug_uniqueness dashboard_id none` is `true` for every
store; but `validate_update_slug_uniqueness dashboard_id (some "")` really
consults the store, reporting a conflict exactly when some row with a
different id carries the empty-string slug. -/
theorem c3_empty_slug_amended (store : List Dashboard) (dashboard_id : Int) :
    validate_slug_uniqueness "" store = true ∧
    validate_update_slug_uniqueness dashboard_id none store = true ∧
    (validate_update_slug_uniqueness dashboard_id (some "") store = false ↔
      ∃ d ∈ store, d.slug = some "" ∧ d.id ≠ dashboard_id) := by
  refine ⟨rfl, rfl, ?_⟩
  unfold validate_update_slug_uniqueness
  simp [List.any_eq_true]

/-! ## Claim C7: bulk delete rolls back and re-raises on storage failure -/

/-- C7: when the bulk row deletion or its commit raises a storage error,
`bulk_delete` rolls the local transaction back (the pending view is reset
to the committed store, discarding the association detachments) and
re-raises exactly the error it caught. -/
theorem c7_bulk_delete_rollback_reraise (models : Option (List Dashboard))
    (commit : Bool) (ex : SQLAlchemyError) (s : DBSession) :
    bulk_delete models commit (some ex) s =
      (.error ex, { committed := s.committed, pending := s.committed }) := by
  unfold bulk_delete
  cases models with
  | none => rfl
  | some ms => cases hms : ms.isEmpty <;> simp [hms]

/-! ## Claim C10: bulk delete of nothing -/

/-- C10: called on `None` or on the empty list with a clean session,
`bulk_delete` performs no association detachment, deletes nothing, commits
successfully, and leaves the session (hence the dashboard store)
unchanged. -/
theorem c10_bulk_delete_empty (s : DBSession) (h : s.pending = s.committed) :
    bulk_delete none true none s = (.ok (), s) ∧
    bulk_delete (some []) true none s = (.ok (), s) := by
  obtain ⟨c, p⟩ := s
  have h2 : p = c := h
  subst h2
  constructor <;>
    · unfold bulk_delete
      simp

/-- Witness for C10 on a session holding one dashboard. -/
def sessionC10 : DBSession := ⟨[baseDashboard], [baseDashboard]⟩

theorem c10_bulk_delete_empty_witness :
    sessionC10.pending = sessionC10.committed ∧
    bulk_delete none true none sessionC10 = (.ok (), sessionC10) ∧
    bulk_delete (some []) true none sessionC10 = (.ok (), sessionC10) :=
  ⟨rfl, (c10_bulk_delete_empty sessionC10 rfl).1,
    (c10_bulk_delete_empty sessionC10 rfl).2⟩

/-! ## Claim C8: derived timestamp queries -/

/-- The spec-side description of the related-collection maximum: the epoch
sentinel when the collection is empty. -/
def maxOrSentinel (l : List Int) : Int :=
  if l.isEmpty then 0 else pyMax l

theorem replaceMicro_max_replaceMicro (a b : Int) :
    replaceMicrosecondZero (max (replaceMicrosecondZero a) b) =
      replaceMicrosecondZero (max a b) := by
  unfold replaceMicrosecondZero
  rw [max_def, max_def]
  split_ifs <;> omega

theorem pyMax_append_sentinel (l : List Int) :
    pyMax (l ++ if l.length == 0 then [0] else []) = maxOrSentinel l := by
  cases l <;> simp [pyMax, maxOrSentinel]

/-- C8: both derived timestamp queries return the (truncated) maximum of
the dashboard's own change timestamp and the maximum over the related
collection, with the epoch sentinel substituted for an empty collection;
in particular, on a dashboard with no charts (resp. datasets) whose own
timestamp is not before the epoch sentinel, the result is the dashboard's
own timestamp truncated to whole seconds. -/
theorem c8_changed_on_queries (d : Dashboard) :
    (get_dashboard_and_slices_changed_on d =
      replaceMicrosecondZero
        (max d.changed_on (maxOrSentinel (d.slices.map (·.changed_on))))) ∧
    (d.slices = [] → 0 ≤ d.changed_on →
      get_dashboard_and_slices_changed_on d = replaceMicrosecondZero d.changed_on) ∧
    (get_dashboard_and_datasets_changed_on d =
      replaceMicrosecondZero
        (max d.changed_on (maxOrSentinel (d.datasources.map (·.changed_on))))) ∧
    (d.datasources = [] → 0 ≤ d.changed_on →
      get_dashboard_and_datasets_changed_on d = replaceMicrosecondZero d.changed_on) := by
  have hs : get_dashboard_and_slices_changed_on d =
      replaceMicrosecondZero
        (max d.changed_on (maxOrSentinel (d.slices.map (·.changed_on)))) := by
    unfold get_dashboard_and_slices_changed_on get_dashboard_changed_on
    have hmax : pyMax ((d.slices.map (·.changed_on)) ++
        (if d.slices.length == 0 then [0] else [])) =
        maxOrSentinel (d.slices.map (·.changed_on)) := by
      cases d.slices <;> simp [pyMax, maxOrSentinel]
    rw [hmax, replaceMicro_max_replaceMicro]
  have hd : get_dashboard_and_datasets_changed_on d =
      replaceMicrosecondZero
        (max d.changed_on (maxOrSentinel (d.datasources.map (·.changed_on)))) := by
    unfold get_dashboard_and_datasets_changed_on get_dashboard_changed_on
    have hmax : pyMax ((d.datasources.map (·.changed_on)) ++
        (if d.datasources.length == 0 then [0] else [])) =
        maxOrSentinel (d.datasources.map (·.changed_on)) := by
      cases d.datasources <;> simp [pyMax, maxOrSentinel]
    rw [hmax, replaceMicro_max_replaceMicro]
  refine ⟨hs, ?_, hd, ?_⟩
  · intro hempty h0
    rw [hs, hempty]
    simp only [List.map_nil, maxOrSentinel, List.isEmpty_nil, if_pos]
    rw [max_eq_left h0]
  · intro hempty h0
    rw [hd, hempty]
    simp only [List.map_nil, maxOrSentinel, List.isEmpty_nil, if_pos]
    rw [max_eq_left h0]

/-- Witness for C8 at a chartless, datasetless dashboard whose change
timestamp is 5.5 seconds after the epoch. -/
def dashC8 : Dashboard := { baseDashboard with changed_on := 5500000 }

theorem c8_changed_on_queries_witness :
    dashC8.slices = [] ∧ dashC8.datasources = [] ∧ 0 ≤ dashC8.changed_on ∧
    get_dashboard_and_slices_changed_on dashC8 =
      replaceMicrosecondZero dashC8.changed_on ∧
    get_dashboard_and_datasets_changed_on dashC8 =
      replaceMicrosecondZero dashC8.changed_on ∧
    get_dashboard_and_slices_changed_on dashC8 = 5000000 :=
  ⟨rfl, rfl, by decide,
    (c8_changed_on_queries dashC8).2.1 rfl (by decide),
    (c8_changed_on_queries dashC8).2.2.2 rfl (by decide),
    by decide⟩

/-! ## Claim C1: the `positions` metadata key -/

/-- A dashboard whose persisted metadata document carries a stale
`positions` key. -/
def dashC1 : Dashboard :=
  { baseDashboard with json_metadata := [("positions", .str "legacy")] }

/-- C1 (counterexample): with an update payload that omits `positions` and
a pre-existing metadata document containing a `positions` key, the
reconciliation succeeds and the serialized metadata document still contains
the `positions` key — contradicting the claim that the key is never present
regardless of input. -/
theorem c1_counterexample :
    set_dash_metadata [] dashC1 emptyUpdate none =
      .ok (noPosResult dashC1 emptyUpdate) ∧
    objGet (noPosResult dashC1 emptyUpdate).json_metadata "positions" =
      some (.str "legacy") ∧
    (some (JVal.str "legacy") ≠ (none : Option JVal)) :=
  ⟨set_dash_metadata_none [] dashC1 emptyUpdate none rfl, rfl,
    Option.some_ne_none _⟩

/-- C1 (amended): when the update payload's `positions` field is present
(non-null) and the reconciliation succeeds, the resulting metadata document
has no `positions` key; when `positions` is absent or null, the metadata's
`positions` entry — including a pre-existing one — is carried over
unchanged. -/
theorem c1_positions_key_amended :
    (∀ (store : List Slice) (d : Dashboard) (data : UpdateData)
        (remap : Option (List (Int × Int))) (ps : JObj) (d' : Dashboard),
      data.positions = some ps →
      set_dash_metadata store d data remap = .ok d' →
      objGet d'.json_metadata "positions" = none) ∧
    (∀ (store : List Slice) (d : Dashboard) (data : UpdateData)
        (remap : Option (List (Int × Int))) (d' : Dashboard),
      data.positions = none →
      set_dash_metadata store d data remap = .ok d' →
      objGet d'.json_metadata "positions" =
        objGet d.json_metadata "positions") := by
  constructor
  · intro store d data remap ps d' hp h
    obtain ⟨sids, ann, app, hscan, hann, happ, hd⟩ :=
      set_dash_metadata_ok_pos store d data remap ps d' hp h
    subst hd
    rw [posResult_json_metadata, applyMC_get_untouched _ _ _ _ (by decide),
      objGet_objPop, if_pos rfl]
  · intro store d data remap d' hp h
    rw [set_dash_metadata_none store d data remap hp] at h
    have hd : noPosResult d data = d' := by injection h
    subst hd
    rw [noPosResult_json_metadata, applyMC_get_untouched _ _ _ _ (by decide)]

/-- The witness payload for C1's positive branch: an empty positions
document. -/
def dataC1w : UpdateData := { emptyUpdate with positions := some [] }

/-- The dashboard produced by the C1 witness run. -/
def resC1w : Dashboard :=
  match set_dash_metadata [] dashC1 dataC1w none with
  | .ok x => x
  | .error _ => dashC1

theorem c1_positions_key_amended_witness :
    dataC1w.positions = some [] ∧
    set_dash_metadata [] dashC1 dataC1w none = .ok resC1w ∧
    objGet resC1w.json_metadata "positions" = none ∧
    emptyUpdate.positions = none ∧
    objGet (noPosResult dashC1 emptyUpdate).json_metadata "positions" =
      objGet dashC1.json_metadata "positions" :=
  ⟨rfl, rfl,
    c1_positions_key_amended.1 [] dashC1 dataC1w none [] resC1w rfl rfl,
    rfl,
    c1_positions_key_amended.2 [] dashC1 emptyUpdate none
      (noPosResult dashC1 emptyUpdate) rfl
      (set_dash_metadata_none [] dashC1 emptyUpdate none rfl)⟩

/-! ## Claim C9: frame of the no-positions branch -/

/-- C9: when the update payload's `positions` field is absent or null, the
reconciliation succeeds and leaves the chart-association set, the position
document and the metadata's `default_filters` entry unchanged; every
metadata key outside the unconditional tail's keys (`commonKeys`) is
likewise carried over unchanged. -/
theorem c9_no_positions_frame (store : List Slice) (d : Dashboard)
    (data : UpdateData) (remap : Option (List (Int × Int))) (d' : Dashboard)
    (hp : data.positions = none)
    (h : set_dash_metadata store d data remap = .ok d') :
    d'.slices = d.slices ∧
    d'.position_json = d.position_json ∧
    objGet d'.json_metadata "default_filters" =
      objGet d.json_metadata "default_filters" ∧
    ∀ k, k ∉ commonKeys →
      objGet d'.json_metadata k = objGet d.json_metadata k := by
  rw [set_dash_metadata_none store d data remap hp] at h
  have hd : noPosResult d data = d' := by injection h
  subst hd
  refine ⟨noPosResult_slices d data, noPosResult_position_json d data, ?_, ?_⟩
  · rw [noPosResult_json_metadata, applyMC_get_untouched _ _ _ _ (by decide)]
  · intro k hk
    rw [noPosResult_json_metadata, applyMC_get_untouched _ _ _ _ hk]

/-- A dashboard with one associated chart, a position document, a
`default_filters` entry and a key untouched by the unconditional tail. -/
def dashC9 : Dashboard :=
  { baseDashboard with
      slices := [sliceOne]
      position_json := "POS"
      json_metadata := [("default_filters", .str "\x7b\x7d"), ("custom", .num 7)] }

/-- A payload without positions that still changes the title. -/
def dataC9 : UpdateData := { emptyUpdate with dashboard_title := some "T2" }

/-- The dashboard produced by the C9 witness run. -/
def resC9 : Dashboard :=
  match set_dash_metadata [] dashC9 dataC9 none with
  | .ok x => x
  | .error _ => dashC9

theorem c9_no_positions_frame_witness :
    dataC9.positions = none ∧
    set_dash_metadata [] dashC9 dataC9 none = .ok resC9 ∧
    resC9.slices = dashC9.slices ∧
    resC9.position_json = dashC9.position_json ∧
    objGet resC9.json_metadata "default_filters" =
      objGet dashC9.json_metadata "default_filters" ∧
    ("custom" ∉ commonKeys ∧
      objGet resC9.json_metadata "custom" = objGet dashC9.json_metadata "custom") :=
  ⟨rfl, rfl,
    (c9_no_positions_frame [] dashC9 dataC9 none resC9 rfl rfl).1,
    (c9_no_positions_frame [] dashC9 dataC9 none resC9 rfl rfl).2.1,
    (c9_no_positions_frame [] dashC9 dataC9 none resC9 rfl rfl).2.2.1,
    ⟨by decide,
      (c9_no_positions_frame [] dashC9 dataC9 none resC9 rfl rfl).2.2.2
        "custom" (by decide)⟩⟩

/-! ## Claim C2: which default-filter entries are retained -/

/-- The C2 payload: positions referencing chart id 2, default filters with
the single key `"2"`. -/
def dataC2 : UpdateData :=
  { emptyUpdate with
      positions := some [("a", posCHART 2)]
      default_filters := some [("2", .str "b")] }

/-- The dashboard produced by the C2 counterexample run (empty chart
store). -/
def resC2 : Dashboard :=
  match set_dash_metadata [] baseDashboard dataC2 none with
  | .ok x => x
  | .error _ => baseDashboard

/-- C2 (counterexample): with an empty chart store, chart id 2 is
referenced by positions but resolves to no stored chart, so the claim's
resolved chart-id set is empty and predicts the stored value
`pyJsonDumpsDefault (.obj [])` (the empty document).  The code instead
filters against the referenced ids and stores the JSON dump of
`\x7b"2": "b"\x7d`. -/
theorem c2_counterexample :
    set_dash_metadata [] baseDashboard dataC2 none = .ok resC2 ∧
    currentSlices [] [JVal.num 2] = [] ∧
    objGet resC2.json_metadata "default_filters" =
      some (.str "\x7b\"2\": \"b\"\x7d") ∧
    ("\x7b\"2\": \"b\"\x7d" : String) ≠ pyJsonDumpsDefault (.obj []) :=
  ⟨rfl, rfl, rfl, by decide⟩

/-- C2 (amended): the stored `default_filters` value is the JSON dump of
exactly those entries of the parsed default-filters document whose key,
read as an integer, is among the chart-id values scanned from the positions
document — whether or not those ids resolve to stored charts. -/
theorem c2_default_filters_amended (store : List Slice) (d : Dashboard)
    (data : UpdateData) (remap : Option (List (Int × Int))) (ps dfs : JObj)
    (sids : List JVal) (d' : Dashboard)
    (hp : data.positions = some ps)
    (hdf : data.default_filters = some dfs)
    (hscan : scanChartIds ps = .ok sids)
    (h : set_dash_metadata store d data remap = .ok d') :
    objGet d'.json_metadata "default_filters" =
      some (.str (pyJsonDumpsDefault (.obj (dfs.filter fun kv =>
        match pyInt kv.1 with
        | some n => pyIntMem sids n
        | none => false)))) := by
  obtain ⟨sids2, ann, app, hscan2, hann, happ, hd⟩ :=
    set_dash_metadata_ok_pos store d data remap ps d' hp h
  rw [hscan] at hscan2
  cases hscan2
  subst hd
  rw [posResult_json_metadata, applyMC_get_untouched _ _ _ _ (by decide),
    objGet_objPop, if_neg (by decide), objGet_objSet, if_pos rfl]
  rw [hdf] at happ
  simp only [Option.getD_some] at happ
  rw [applicableFilters_ok_eq sids dfs app happ]

/-- The C2 witness payload: the spec's worked example, with chart id 1
both referenced and resolvable. -/
def dataC2w : UpdateData :=
  { emptyUpdate with
      positions := some [("a", posCHART 1)]
      default_filters := some [("1", .str "a"), ("2", .str "b")] }

/-- The dashboard produced by the C2 witness run. -/
def resC2w : Dashboard :=
  match set_dash_metadata [sliceOne] baseDashboard dataC2w none with
  | .ok x => x
  | .error _ => baseDashboard

theorem c2_default_filters_amended_witness :
    dataC2w.positions = some [("a", posCHART 1)] ∧
    dataC2w.default_filters = some [("1", .str "a"), ("2", .str "b")] ∧
    scanChartIds [("a", posCHART 1)] = .ok [.num 1] ∧
    set_dash_metadata [sliceOne] baseDashboard dataC2w none = .ok resC2w ∧
    objGet resC2w.json_metadata "default_filters" =
      some (.str "\x7b\"1\": \"a\"\x7d") :=
  ⟨rfl, rfl, rfl, rfl,
    (c2_default_filters_amended [sliceOne] baseDashboard dataC2w none
      [("a", posCHART 1)] [("1", .str "a"), ("2", .str "b")] [.num 1] resC2w
      rfl rfl rfl rfl).trans rfl⟩

/-! ## Claim C5: UUID annotation of chart-reference nodes -/

/-- The C5 payload: a positions document whose single entry is a mapping
with no `type` key at all. -/
def dataC5 : UpdateData := { emptyUpdate with positions := some [("a", .obj [])] }

/-- C5 (counterexample): a mapping entry lacking the `type` key makes the
whole operation fail with a key-lookup error, contradicting the claim that
mapping entries of every shape are covered without failure. -/
theorem c5_counterexample :
    dataC5.positions = some [("a", JVal.obj [])] ∧
    set_dash_metadata [] baseDashboard dataC5 none = .error (.keyError "type") :=
  ⟨rfl, rfl⟩

/-- C5 (amended): a mapping entry carrying `type == "CHART"` and a `meta`
mapping with a truthy `chartId` is annotated with the resolved chart's
UUID, or with null when the id resolves to no stored chart — without
failing; and the position document stored by a successful
`set_dash_metadata` run is the compact key-sorted dump of the annotated
positions document.  (Mapping entries without a `type` key are not
tolerated: they raise a key-lookup error, as the counterexample shows.) -/
theorem c5_annotation_amended :
    (∀ (cs : List Slice) (fields mf : JObj) (cid : JVal),
      objGet fields "type" = some (.str "CHART") →
      objGet fields "meta" = some (.obj mf) →
      objGet mf "chartId" = some cid →
      jTruthy cid = true →
      annotateEntry cs (.obj fields) =
        .ok (.obj (objSet fields "meta" (.obj (objSet mf "uuid"
          (match uuidMapGet cs cid with
           | some u => .str u
           | none => .null)))))) ∧
    (∀ (store : List Slice) (d : Dashboard) (data : UpdateData)
        (remap : Option (List (Int × Int))) (ps : JObj) (sids : List JVal)
        (ann : JObj) (d' : Dashboard),
      data.positions = some ps →
      scanChartIds ps = .ok sids →
      annotatePositions (currentSlices store sids) ps = .ok ann →
      set_dash_metadata store d data remap = .ok d' →
      d'.position_json = pyJsonDumpsSorted (.obj ann)) := by
  constructor
  · intro cs fields mf cid ht hm hc htr
    rw [annotateEntry]
    simp [ht, hm, hc, htr, typeIsChart]
  · intro store d data remap ps sids ann d' hp hscan hann h
    obtain ⟨sids2, ann2, app, hscan2, hann2, happ, hd⟩ :=
      set_dash_metadata_ok_pos store d data remap ps d' hp h
    rw [hscan] at hscan2
    cases hscan2
    rw [hann] at hann2
    cases hann2
    subst hd
    exact posResult_position_json store d data remap sids ann app

/-- The C5 witness payload: one resolvable chart reference. -/
def dataC5w : UpdateData := { emptyUpdate with positions := some [("a", posCHART 1)] }

/-- The dashboard produced by the C5 witness run. -/
def resC5w : Dashboard :=
  match set_dash_metadata [sliceOne] baseDashboard dataC5w none with
  | .ok x => x
  | .error _ => baseDashboard

theorem c5_annotation_amended_witness :
    annotateEntry [sliceOne] (posCHART 1) =
      .ok (.obj [("type", .str "CHART"),
        ("meta", .obj [("chartId", .num 1), ("uuid", .str "uuid-1")])]) ∧
    annotateEntry [] (posCHART 1) =
      .ok (.obj [("type", .str "CHART"),
        ("meta", .obj [("chartId", .num 1), ("uuid", .null)])]) ∧
    set_dash_metadata [sliceOne] baseDashboard dataC5w none = .ok resC5w ∧
    resC5w.position_json =
      "\x7b\"a\":\x7b\"meta\":\x7b\"chartId\":1,\"uuid\":\"uuid-1\"\x7d,\"type\":\"CHART\"\x7d\x7d" :=
  ⟨(c5_annotation_amended.1 [sliceOne]
      [("type", .str "CHART"), ("meta", .obj [("chartId", .num 1)])]
      [("chartId", .num 1)] (.num 1) rfl rfl rfl rfl).trans rfl,
   (c5_annotation_amended.1 []
      [("type", .str "CHART"), ("meta", .obj [("chartId", .num 1)])]
      [("chartId", .num 1)] (.num 1) rfl rfl rfl rfl).trans rfl,
   rfl,
   (c5_annotation_amended.2 [sliceOne] baseDashboard dataC5w none
      [("a", posCHART 1)] [.num 1]
      [("a", .obj [("type", .str "CHART"),
        ("meta", .obj [("chartId", .num 1), ("uuid", .str "uuid-1")])])]
      resC5w rfl rfl rfl rfl).trans rfl⟩

/-! ## Claim C6: non-numeric default-filter keys -/

/-- The C6 payload: a malformed positions entry together with a non-numeric
default-filters key. -/
def dataC6 : UpdateData :=
  { emptyUpdate with
      positions := some [("a", .obj [])]
      default_filters := some [("x", .str "v")] }

/-- C6 (counterexample): a payload whose positions document contains a
mapping without a `type` key and whose default-filters document contains
the non-numeric key `"x"` fails with a key-lookup error, not with a parse
error — the annotation pass raises first. -/
theorem c6_counterexample :
    dataC6.positions = some [("a", JVal.obj [])] ∧
    dataC6.default_filters = some [("x", JVal.str "v")] ∧
    pyInt "x" = none ∧
    set_dash_metadata [] baseDashboard dataC6 none = .error (.keyError "type") ∧
    isParseError (.keyError "type") = false :=
  ⟨rfl, rfl, rfl, rfl, rfl⟩

/-- C6 (amended): a positions-bearing payload whose default-filters
document contains a key that does not parse as an integer always makes
`set_dash_metadata` fail; when the chart-id scan and the annotation pass
complete, the failure is specifically an integer parse error; and when
every default-filters key parses, no parse error can occur. -/
theorem c6_default_filters_error_amended :
    (∀ (store : List Slice) (d : Dashboard) (data : UpdateData)
        (remap : Option (List (Int × Int))) (ps dfs : JObj),
      data.positions = some ps →
      data.default_filters = some dfs →
      (∃ kv ∈ dfs, pyInt kv.1 = none) →
      ∃ e, set_dash_metadata store d data remap = .error e) ∧
    (∀ (store : List Slice) (d : Dashboard) (data : UpdateData)
        (remap : Option (List (Int × Int))) (ps dfs : JObj)
        (sids : List JVal) (ann : JObj),
      data.positions = some ps →
      data.default_filters = some dfs →
      scanChartIds ps = .ok sids →
      annotatePositions (currentSlices store sids) ps = .ok ann →
      (∃ kv ∈ dfs, pyInt kv.1 = none) →
      ∃ e, set_dash_metadata store d data remap = .error e ∧
        isParseError e = true) ∧
    (∀ (store : List Slice) (d : Dashboard) (data : UpdateData)
        (remap : Option (List (Int × Int))) (e : PyErr),
      (∀ kv ∈ data.default_filters.getD [], (pyInt kv.1).isSome) →
      set_dash_metadata store d data remap = .error e →
      isParseError e = false) := by
  refine ⟨?_, ?_, ?_⟩
  · intro store d data remap ps dfs hp hdf hbad
    cases hscan : scanChartIds ps with
    | error e =>
        exact ⟨e, set_dash_metadata_scan_error store d data remap ps e hp hscan⟩
    | ok sids =>
        cases hann : annotatePositions (currentSlices store sids) ps with
        | error e =>
            exact ⟨e, set_dash_metadata_annotate_error store d data remap ps
              sids e hp hscan hann⟩
        | ok ann =>
            obtain ⟨k, herr, hkbad⟩ := applicableFilters_error_of_bad_key sids dfs hbad
            refine ⟨.valueError k, set_dash_metadata_filters_error store d data
              remap ps sids ann (.valueError k) hp hscan hann ?_⟩
            rw [hdf]
            simpa only [Option.getD_some] using herr
  · intro store d data remap ps dfs sids ann hp hdf hscan hann hbad
    obtain ⟨k, herr, hkbad⟩ := applicableFilters_error_of_bad_key sids dfs hbad
    refine ⟨.valueError k, set_dash_metadata_filters_error store d data remap
      ps sids ann (.valueError k) hp hscan hann ?_, rfl⟩
    rw [hdf]
    simpa only [Option.getD_some] using herr
  · intro store d data remap e hgood h
    cases hp : data.positions with
    | none =>
        rw [set_dash_metadata_none store d data remap hp] at h
        exact absurd h (by simp)
    | some ps =>
        cases hscan : scanChartIds ps with
        | error e2 =>
            rw [set_dash_metadata_scan_error store d data remap ps e2 hp hscan] at h
            have he : e2 = e := by injection h
            rw [← he, scanChartIds_error_shape ps e2 hscan]
            rfl
        | ok sids =>
            cases hann : annotatePositions (currentSlices store sids) ps with
            | error e2 =>
                rw [set_dash_metadata_annotate_error store d data remap ps sids
                  e2 hp hscan hann] at h
                have he : e2 = e := by injection h
                rw [← he]
                exact annotatePositions_error_shape (currentSlices store sids) ps e2 hann
            | ok ann =>
                obtain ⟨app, happ⟩ :=
                  applicableFilters_ok_of_good_keys sids (data.default_filters.getD []) hgood
                rw [set_dash_metadata_pos_ok store d data remap ps sids ann app
                  hp hscan hann happ] at h
                exact absurd h (by simp)

/-- The C6 witness payload for the parse-error branch: a well-formed chart
reference plus a bad key. -/
def dataC6w : UpdateData :=
  { emptyUpdate with
      positions := some [("a", posCHART 1)]
      default_filters := some [("x", .str "v")] }

/-- The C6 witness payload for the no-parse-error branch: all keys
numeric. -/
def dataC6w2 : UpdateData :=
  { emptyUpdate with
      positions := some [("a", posCHART 1)]
      default_filters := some [("1", .str "a")] }

theorem c6_default_filters_error_amended_witness :
    (∃ e, set_dash_metadata [] baseDashboard dataC6w none = .error e) ∧
    (∃ e, set_dash_metadata [] baseDashboard dataC6w none = .error e ∧
      isParseError e = true) ∧
    set_dash_metadata [] baseDashboard dataC6w none = .error (.valueError "x") ∧
    (∀ e, set_dash_metadata [] baseDashboard dataC6w2 none = .error e →
      isParseError e = false) :=
  ⟨c6_default_filters_error_amended.1 [] baseDashboard dataC6w none
      [("a", posCHART 1)] [("x", .str "v")] rfl rfl
      ⟨("x", .str "v"), by simp, rfl⟩,
    c6_default_filters_error_amended.2.1 [] baseDashboard dataC6w none
      [("a", posCHART 1)] [("x", .str "v")] [.num 1]
      [("a", .obj [("type", .str "CHART"),
        ("meta", .obj [("chartId", .num 1), ("uuid", .null)])])]
      rfl rfl rfl rfl ⟨("x", .str "v"), by simp, rfl⟩,
    rfl,
    fun e h => c6_default_filters_error_amended.2.2 [] baseDashboard dataC6w2
      none e (by decide) h⟩

/-! ## Claim C4: idempotence of a positions-bearing update -/

/-- C4: reapplying the same positions-bearing update (same payload, same
id-remap argument, same chart store) to the dashboard produced by a first
application reproduces the same metadata document (hence the same
serialized metadata blob) and the same serialized position document. -/
theorem c4_idempotent (store : List Slice) (d : Dashboard) (data : UpdateData)
    (remap : Option (List (Int × Int))) (ps : JObj) (d1 d2 : Dashboard)
    (hp : data.positions = some ps)
    (h1 : set_dash_metadata store d data remap = .ok d1)
    (h2 : set_dash_metadata store d1 data remap = .ok d2) :
    d2.json_metadata = d1.json_metadata ∧
    d2.position_json = d1.position_json ∧
    pyJsonDumpsDefault (.obj d2.json_metadata) =
      pyJsonDumpsDefault (.obj d1.json_metadata) := by
  obtain ⟨sids, ann, app, hscan, hann, happ, hd1⟩ :=
    set_dash_metadata_ok_pos store d data remap ps d1 hp h1
  obtain ⟨sids2, ann2, app2, hscan2, hann2, happ2, hd2⟩ :=
    set_dash_metadata_ok_pos store d1 data remap ps d2 hp h2
  rw [hscan] at hscan2
  cases hscan2
  rw [hann] at hann2
  cases hann2
  rw [happ] at happ2
  cases happ2
  subst hd1
  subst hd2
  have hjson :
      (posResult store (posResult store d data remap sids ann app) data remap
        sids ann app).json_metadata =
      (posResult store d data remap sids ann app).json_metadata := by
    rw [posResult_json_metadata, posResult_json_metadata]
    have hdfget : objGet
        (applyMetadataCommon data
          (computeFilterScopes copy_filter_scopes data remap sids)
          (objPop (objSet d.json_metadata "default_filters"
            (.str (pyJsonDumpsDefault (.obj app)))) "positions"))
        "default_filters" =
        some (.str (pyJsonDumpsDefault (.obj app))) := by
      rw [applyMC_get_untouched _ _ _ _ (by decide), objGet_objPop,
        if_neg (by decide), objGet_objSet, if_pos rfl]
    have hposget : objGet
        (applyMetadataCommon data
          (computeFilterScopes copy_filter_scopes data remap sids)
          (objPop (objSet d.json_metadata "default_filters"
            (.str (pyJsonDumpsDefault (.obj app)))) "positions"))
        "positions" = none := by
      rw [applyMC_get_untouched _ _ _ _ (by decide), objGet_objPop, if_pos rfl]
    rw [objSet_eq_self _ _ _ hdfget, objPop_eq_self _ _ hposget,
      applyMetadataCommon_idem]
  refine ⟨hjson, ?_, by rw [hjson]⟩
  rw [posResult_position_json, posResult_position_json]

/-- The C4 witness fixture: a dashboard with stale metadata and an update
carrying positions, filter scopes, default filters and color settings. -/
def dashC4 : Dashboard :=
  { baseDashboard with
      json_metadata :=
        [("positions", .str "stale"), ("color_scheme", .str "old"), ("keep", .num 3)] }

/-- The C4 witness payload. -/
def dataC4 : UpdateData :=
  { emptyUpdate with
      positions := some [("a", posCHART 1)]
      filter_scopes := some [("1", .obj [])]
      default_filters := some [("1", .str "a"), ("2", .str "b")]
      dashboard_title := some "T"
      color_namespace := some (.str "ns") }

/-- First application of the C4 witness update. -/
def resC4a : Dashboard :=
  match set_dash_metadata [sliceOne] dashC4 dataC4 none with
  | .ok x => x
  | .error _ => dashC4

/-- Second application of the C4 witness update. -/
def resC4b : Dashboard :=
  match set_dash_metadata [sliceOne] resC4a dataC4 none with
  | .ok x => x
  | .error _ => resC4a

theorem c4_idempotent_witness :
    dataC4.positions = some [("a", posCHART 1)] ∧
    set_dash_metadata [sliceOne] dashC4 dataC4 none = .ok resC4a ∧
    set_dash_metadata [sliceOne] resC4a dataC4 none = .ok resC4b ∧
    resC4b.json_metadata = resC4a.json_metadata ∧
    resC4b.position_json = resC4a.position_json :=
  ⟨rfl, rfl, rfl,
    (c4_idempotent [sliceOne] dashC4 dataC4 none [("a", posCHART 1)]
      resC4a resC4b rfl rfl rfl).1,
    (c4_idempotent [sliceOne] dashC4 dataC4 none [("a", posCHART 1)]
      resC4a resC4b rfl rfl rfl).2.1⟩

end SupersetDashboards
